import Mathlib

/-!
Verification of the Scheme Research Application (`src/main.py`).

The application is a retrieval-augmented question-answering tool built on
Streamlit.  The definitions below are a shallow embedding of the session
logic of `run_app` together with the helper functions
`fetch_and_split_documents`, `read_uploaded_pdf`, `store_in_faiss` and
`summarize_sections`.  External systems (the URL loader, the FAISS
nearest-neighbour search, and the hosted Groq language model) are modelled
as oracles supplied to each operation; the session state mutated by
Streamlit callbacks is threaded explicitly.
-/

namespace SchemeApp

/- ## Python string primitives

`str.strip` and `str.splitlines` are used by the handlers; they are modelled
directly over the character list of a string so that they compute. -/

/-- Python `str.strip()`: remove leading and trailing whitespace characters. -/
def stripChars (l : List Char) : List Char :=
  ((l.dropWhile Char.isWhitespace).reverse.dropWhile Char.isWhitespace).reverse

/-- Python `str.strip()` lifted to strings. -/
def pyStrip (s : String) : String :=
  String.mk (stripChars s.data)

/-- Python `str.splitlines()` over a character list, with newline as the
line terminator: a trailing newline does not produce a trailing empty line. -/
def splitLinesChars : List Char → List (List Char)
  | [] => []
  | c :: rest =>
    if c = '\n' then [] :: splitLinesChars rest
    else
      match splitLinesChars rest with
      | [] => [[c]]
      | line :: more => (c :: line) :: more

/-- Python `str.splitlines()` lifted to strings. -/
def splitlines (s : String) : List String :=
  (splitLinesChars s.data).map String.mk

/- ## Data model -/

/-- A LangChain document: page content plus the `source` entry of its
metadata dictionary (absent when the loader recorded no source). -/
structure Document where
  page_content : String
  source : Option String
deriving DecidableEq

/-- An uploaded PDF file: its original filename and the text of its pages. -/
structure PDFFile where
  name : String
  pages : List String
deriving DecidableEq

/-- One entry of `st.session_state.qa_history` (src/main.py lines 500-504). -/
structure QARecord where
  question : String
  answer : String
  sources : List String
deriving DecidableEq

/-- The FAISS vector store, used by the application purely as an opaque
collection of embedded chunks queried through `as_retriever`. -/
structure VectorIndex where
  chunks : List Document
deriving DecidableEq

/-- The cached summary: category name to answer text, in insertion order. -/
abbrev Summary := List (String × String)

/-- The session-scoped fields of `st.session_state` used by `run_app`
(src/main.py lines 338-341, 350-354, 380). -/
structure SessionState where
  qa_history : List QARecord
  summary_generated : Bool
  vector_store : Option VectorIndex
  summary_data : Option Summary
  selected_model : String
  input_type : String
deriving DecidableEq

/-- The state established by the `setdefault` calls and the sidebar widget
defaults on a fresh session (src/main.py lines 338-341, 350-354, 371-380). -/
def defaultState : SessionState where
  qa_history := []
  summary_generated := false
  vector_store := none
  summary_data := none
  selected_model := "llama3-8b-8192"
  input_type := "None"

/- ## External oracles -/

/-- The external retrieval and generation systems.  `retriever index q k`
models `index.as_retriever(search_kwargs=...)` returning the `k` most
similar chunks to query `q`; `generate model prompt docs` models invoking
the Groq chat model on the grounding prompt built from the retrieved
documents, either producing the answer text or raising an exception. -/
structure LLMBackend where
  retriever : VectorIndex → String → Nat → List Document
  generate : String → String → List Document → Except String String

/-- The value returned by `RetrievalQA.invoke` with
`return_source_documents=True`: the answer text and the retrieved documents. -/
structure ChainResult where
  result : String
  source_documents : List Document
deriving DecidableEq

/-- Embedding of `RetrievalQA.from_chain_type(...).invoke(query)`: retrieve the `k` most
similar chunks, then invoke the language model on them; a model failure
propagates as an exception. -/
def qa_chain_invoke (b : LLMBackend) (model : String) (index : VectorIndex)
    (k : Nat) (query : String) : Except String ChainResult :=
  let docs := b.retriever index query k
  match b.generate model query docs with
  | Except.ok ans => Except.ok { result := ans, source_documents := docs }
  | Except.error e => Except.error e

/- ## Chunker -/

/-- Modelled from the spec: the text splitter
(`RecursiveCharacterTextSplitter(chunk_size=300, chunk_overlap=20)`) is
LangChain library code not contained in this repository.  The spec describes
a deterministic split of the text into chunks of at most `cs` characters in
which consecutive chunks overlap in `ov` characters, so each step emits the
next `cs` characters and advances by `cs - ov`.  The fuel argument bounds
the recursion; the wrapper passes the text length, which always suffices. -/
def splitCharsAux (cs ov : Nat) : Nat → List Char → List (List Char)
  | 0, l => [l]
  | fuel + 1, l =>
    if l.length ≤ cs then [l]
    else l.take cs :: splitCharsAux cs ov fuel (l.drop (cs - ov))

/-- Modelled from the spec: character-level chunking with chunk size `cs`
and overlap `ov` (see `splitCharsAux`). -/
def splitChars (cs ov : Nat) (l : List Char) : List (List Char) :=
  splitCharsAux cs ov l.length l

/-- Modelled from the spec: `splitter.split_text` on one document text. -/
def split_text (cs ov : Nat) (s : String) : List String :=
  (splitChars cs ov s.data).map String.mk

/-- Embedding of `splitter.split_documents`: split each document's text, every chunk
keeping the parent document's source metadata. -/
def split_documents (cs ov : Nat) (docs : List Document) : List Document :=
  docs.flatMap fun doc =>
    (split_text cs ov doc.page_content).map fun chunk =>
      { page_content := chunk, source := doc.source }

/- ## Document acquisition (src/main.py lines 237-269) -/

/-- Embedding of `read_uploaded_pdf` (src/main.py lines 238-251): the uploaded bytes are
saved under `uploads/<name>` and one document per page is produced, each
tagged with source `/uploads/<name>`.  The updated uploads directory listing
is returned together with the page documents. -/
def read_uploaded_pdf (uploads : List String) (pdf : PDFFile) :
    List String × List Document :=
  (uploads ++ [pdf.name],
   pdf.pages.map fun p =>
     { page_content := p, source := some ("/uploads/" ++ pdf.name) })

/-- Embedding of `fetch_and_split_documents` (src/main.py lines 254-269): load the URLs
through the fetch oracle; if loading raises, or no documents come back, or
every document's content strips to the empty string, return `None`
(Python) = `none`; otherwise split into chunks of size 300 / overlap 20. -/
def fetch_and_split_documents (fetch : List String → Except String (List Document))
    (url_list : List String) : Option (List Document) :=
  match fetch url_list with
  | Except.error _ => none
  | Except.ok raw_docs =>
    if raw_docs.isEmpty || raw_docs.all (fun doc => pyStrip doc.page_content == "") then
      none
    else
      some (split_documents 300 20 raw_docs)

/-- Embedding of `store_in_faiss` (src/main.py lines 272-278): embed every chunk and
build one FAISS index over them; the index is modelled by the chunk
collection it contains. -/
def store_in_faiss (text_chunks : List Document) : VectorIndex :=
  { chunks := text_chunks }

/- ## The Process action (src/main.py lines 409-437) -/

/-- The URL branch of the Process handler (src/main.py lines 412-417):
strip each line of the text area, keep the non-empty ones, and fetch and
split them; any failure or lack of usable content contributes nothing. -/
def collectURLDocs (fetch : List String → Except String (List Document))
    (raw_links : Option String) : List Document :=
  match raw_links with
  | none => []
  | some raw =>
    if raw = "" then []
    else
      let urls := ((splitlines raw).map pyStrip).filter (fun line => line != "")
      if urls.isEmpty then []
      else
        match fetch_and_split_documents fetch urls with
        | some docs => docs
        | none => []

/-- The PDF branch of the Process handler (src/main.py lines 419-426): save
the upload, load its pages and split them with chunk size 300 / overlap 20.
Returns the updated uploads listing and the chunks. -/
def collectPDFDocs (uploads : List String) (url_file : Option PDFFile) :
    List String × List Document :=
  match url_file with
  | none => (uploads, [])
  | some pdf =>
    let loaded := read_uploaded_pdf uploads pdf
    (loaded.1, split_documents 300 20 loaded.2)

/-- The Process button handler (src/main.py lines 409-437).  Both input
branches are collected into `all_documents`; if anything was collected a
fresh index replaces `vector_store`, otherwise the
"Could not extract usable text" warning is shown and the state is left
untouched.  Returns the new state, the uploads listing, and whether the
warning was shown. -/
def processAction (fetch : List String → Except String (List Document))
    (st : SessionState) (uploads : List String)
    (raw_links : Option String) (url_file : Option PDFFile) :
    SessionState × List String × Bool :=
  let url_docs := collectURLDocs fetch raw_links
  let pdfres := collectPDFDocs uploads url_file
  let all_documents := url_docs ++ pdfres.2
  if all_documents.isEmpty then
    (st, pdfres.1, true)
  else
    ({ st with vector_store := some (store_in_faiss all_documents) }, pdfres.1, false)

/- ## Summarization (src/main.py lines 281-300, 439-448) -/

/-- Python `result["result"].strip() or "No information found."`
(src/main.py line 299): the stripped answer when non-empty, else the
fallback text. -/
def stripOrFallback (s : String) : String :=
  if pyStrip s = "" then "No information found." else pyStrip s

/-- The fixed category-to-prompt dictionary of `summarize_sections`
(src/main.py lines 284-289), in insertion order. -/
def questions : List (String × String) :=
  [("Benefits", "Summarize the key benefits of the scheme."),
   ("Process", "Describe the application process for the scheme."),
   ("Eligibility", "What are the eligibility criteria for this scheme?"),
   ("Documents", "List documents required to apply.")]

/-- The loop body of `summarize_sections` (src/main.py lines 291-299): for
each category, build a `RetrievalQA` chain with `k = 10` and invoke it on
the category's prompt; an exception aborts the whole loop. -/
def summarizeLoop (b : LLMBackend) (model : String) (index : VectorIndex) :
    List (String × String) → Except String Summary
  | [] => Except.ok []
  | kp :: rest =>
    match qa_chain_invoke b model index 10 kp.2 with
    | Except.error e => Except.error e
    | Except.ok res =>
      match summarizeLoop b model index rest with
      | Except.error e => Except.error e
      | Except.ok restSummary =>
        Except.ok ((kp.1, stripOrFallback res.result) :: restSummary)

/-- Embedding of `summarize_sections(index)` (src/main.py lines 281-300).  The model name
is read from `st.session_state["selected_model"]` by the source and is
passed explicitly here. -/
def summarize_sections (b : LLMBackend) (model : String) (index : VectorIndex) :
    Except String Summary :=
  summarizeLoop b model index questions

/-- The Generate Summary button handler (src/main.py lines 439-448): when an
index is present, clicking the button unconditionally recomputes
`summarize_sections` and caches the result, setting `summary_generated`.
There is no try/except here, so a failure propagates (the error component).
Returns the resulting state and the number of `summarize_sections`
invocations performed. -/
def generateSummary (b : LLMBackend) (st : SessionState) :
    Except String SessionState × Nat :=
  match st.vector_store with
  | none => (Except.ok st, 0)
  | some index =>
    match summarize_sections b st.selected_model index with
    | Except.ok summary_data =>
      (Except.ok { st with summary_data := some summary_data,
                           summary_generated := true }, 1)
    | Except.error e => (Except.error e, 1)

/- ## Question submission (src/main.py lines 469-513) -/

/-- The question form handler (src/main.py lines 469-513).  A question is
processed only when the index is present, the text is non-empty (Python
`if question:`) and no history entry has the exact same question string.
On success the sources of the retrieved documents are collected into a set
(`filterMap` models `if "source" in metadata`, `dedup` models `list(set(.))`)
and one record is appended; on an exception the error message is shown and
nothing is appended.  Returns the new state, the number of chain
invocations performed, and whether an error message was shown. -/
def submitQuestion (b : LLMBackend) (st : SessionState) (question : String) :
    SessionState × Nat × Bool :=
  match st.vector_store with
  | none => (st, 0, false)
  | some index =>
    if question = "" then (st, 0, false)
    else if st.qa_history.any (fun r => r.question == question) then (st, 0, false)
    else
      match qa_chain_invoke b st.selected_model index 10 question with
      | Except.ok res =>
        let source_urls := (res.source_documents.filterMap Document.source).dedup
        ({ st with qa_history := st.qa_history ++
            [{ question := question, answer := res.result, sources := source_urls }] },
         1, false)
      | Except.error _ => (st, 1, true)

/- ## Reset (src/main.py lines 390-407) -/

/-- The Reset Tool handler (src/main.py lines 390-407): every key of
`st.session_state` is deleted and every file in the `uploads` directory is
removed; on the subsequent rerun the `setdefault` calls and the sidebar
widget defaults re-establish `defaultState`. -/
def resetTool (_st : SessionState) (_uploads : List String) :
    SessionState × List String :=
  (defaultState, [])

/- ## Chunk reconstruction (spec section 8) -/

/-- Drop the first `n` characters of a string. -/
def dropChars (n : Nat) (s : String) : String :=
  String.mk (s.data.drop n)

/-- Concatenate a list of strings in order. -/
def concatStrings : List String → String
  | [] => ""
  | s :: rest => s ++ concatStrings rest

/-- Concatenation of the chunks' unique (non-overlap) regions: the first
chunk in full, every later chunk with its leading `ov`-character overlap
removed. -/
def uniqueRegionsConcat (ov : Nat) : List String → String
  | [] => ""
  | c :: rest => c ++ concatStrings (rest.map (dropChars ov))

/-- Character-level counterpart of `uniqueRegionsConcat`. -/
def reconstructChars (ov : Nat) : List (List Char) → List Char
  | [] => []
  | c :: rest => c ++ ((rest.map (List.drop ov)).flatten)

/- ## Concrete data used by witnesses and counterexamples -/

/-- A sample indexed chunk. -/
def sampleChunk : Document :=
  { page_content := "scheme text", source := some "https://example.com/scheme" }

/-- A sample one-chunk index. -/
def sampleIndex : VectorIndex :=
  { chunks := [sampleChunk] }

/-- A backend whose model always answers successfully. -/
def okBackend : LLMBackend where
  retriever := fun index _ _ => index.chunks
  generate := fun _ q _ => Except.ok ("answer to " ++ q)

/-- A backend whose model always raises. -/
def failBackend : LLMBackend where
  retriever := fun index _ _ => index.chunks
  generate := fun _ _ _ => Except.error "rate limit"

/-- A backend whose model always returns whitespace-only text. -/
def blankBackend : LLMBackend where
  retriever := fun index _ _ => index.chunks
  generate := fun _ _ _ => Except.ok "   "

/-- A session holding an index, with empty history and no summary. -/
def st0 : SessionState where
  qa_history := []
  summary_generated := false
  vector_store := some sampleIndex
  summary_data := none
  selected_model := "llama3-8b-8192"
  input_type := "URLs"

/-- A session whose history already contains the question `q1`. -/
def stDup : SessionState :=
  { st0 with qa_history := [{ question := "q1", answer := "a1",
                              sources := ["https://example.com/scheme"] }] }

/-- A session in which the summary has already been generated and cached. -/
def stSummarized : SessionState :=
  { st0 with summary_generated := true,
             summary_data := some [("Benefits", "old")] }

/-- The summary `okBackend` produces for the four fixed prompts. -/
def freshSummary : Summary :=
  [("Benefits", "answer to Summarize the key benefits of the scheme."),
   ("Process", "answer to Describe the application process for the scheme."),
   ("Eligibility", "answer to What are the eligibility criteria for this scheme?"),
   ("Documents", "answer to List documents required to apply.")]

/-- The summary produced when every model answer strips to the empty string. -/
def allFallback : Summary :=
  [("Benefits", "No information found."),
   ("Process", "No information found."),
   ("Eligibility", "No information found."),
   ("Documents", "No information found.")]

/-- A fetch oracle whose loaded documents contain only whitespace. -/
def whitespaceFetch : List String → Except String (List Document) :=
  fun _ => Except.ok [{ page_content := "   ", source := some "https://example.com/a" }]

/-- A sample uploaded PDF. -/
def samplePDF : PDFFile where
  name := "scheme.pdf"
  pages := ["pdf page text"]

/-- A 900-character document text. -/
def c8text : String :=
  String.mk (List.replicate 900 'a')

/-- A fetch oracle returning one document of 900 characters. -/
def c8fetch : List String → Except String (List Document) :=
  fun _ => Except.ok [{ page_content := c8text, source := some "https://example.com/scheme" }]

/-- The record appended when `q2` is asked against `sampleIndex` through
`okBackend`. -/
def q2Record : QARecord where
  question := "q2"
  answer := "answer to q2"
  sources := ["https://example.com/scheme"]

/- ## Helper lemmas -/

/-- Appending strings concatenates their character lists. -/
theorem data_append (s t : String) : (s ++ t).data = s.data ++ t.data := by
  cases s
  cases t
  rfl

/-- Characters of a string built from a character list. -/
theorem mk_data (l : List Char) : (String.mk l).data = l := rfl

/-- Strings with the same characters are equal. -/
theorem eq_of_data_eq (s t : String) (h : s.data = t.data) : s = t := by
  cases s
  cases t
  cases h
  rfl

/-- Characters of a concatenation of strings. -/
theorem concatStrings_data (ls : List String) :
    (concatStrings ls).data = (ls.map String.data).flatten := by
  induction ls with
  | nil => rfl
  | cons s rest ih => simp [concatStrings, data_append, ih]

/-- The string-level unique-region concatenation agrees with the
character-level one. -/
theorem uniqueRegionsConcat_data (ov : Nat) (chunks : List (List Char)) :
    (uniqueRegionsConcat ov (chunks.map String.mk)).data = reconstructChars ov chunks := by
  cases chunks with
  | nil => rfl
  | cons c rest =>
    show (String.mk c ++ concatStrings ((rest.map String.mk).map (dropChars ov))).data = _
    rw [data_append, concatStrings_data]
    simp only [reconstructChars, dropChars, mk_data, List.map_map]
    rfl

/-- Dropping the overlap from every chunk and flattening recovers the text
past its first `ov` characters, for any amount of fuel. -/
theorem splitCharsAux_drop_flatten (cs ov : Nat) (hov : ov ≤ cs) :
    ∀ (fuel : Nat) (l : List Char),
      ((splitCharsAux cs ov fuel l).map (List.drop ov)).flatten = l.drop ov := by
  intro fuel
  induction fuel with
  | zero =>
    intro l
    simp [splitCharsAux]
  | succ n ih =>
    intro l
    by_cases h : l.length ≤ cs
    · simp [splitCharsAux, h]
    · simp only [splitCharsAux, if_neg h, List.map_cons, List.flatten_cons, ih]
      rw [List.drop_take, List.drop_drop, Nat.sub_add_cancel hov]
      rw [show l.drop cs = (l.drop ov).drop (cs - ov) from by
            rw [List.drop_drop, Nat.add_sub_cancel' hov]]
      exact List.take_append_drop (cs - ov) (l.drop ov)

/-- Character-level chunk reconstruction: the first chunk followed by every
later chunk's non-overlap region is the original character list. -/
theorem splitChars_reconstruct (cs ov : Nat) (hov : ov ≤ cs) (l : List Char) :
    reconstructChars ov (splitChars cs ov l) = l := by
  unfold splitChars
  cases hfuel : l.length with
  | zero =>
    have hnil : l = [] := List.length_eq_zero.mp hfuel
    subst hnil
    simp [splitCharsAux, reconstructChars]
  | succ n =>
    simp only [splitCharsAux]
    by_cases h : l.length ≤ cs
    · simp [h, reconstructChars]
    · simp only [if_neg h, reconstructChars]
      rw [splitCharsAux_drop_flatten cs ov hov]
      rw [List.drop_drop, Nat.sub_add_cancel hov]
      exact List.take_append_drop cs l

/-- The fallback value is never the empty string. -/
theorem stripOrFallback_ne_empty (s : String) : stripOrFallback s ≠ "" := by
  unfold stripOrFallback
  split
  · decide
  · assumption

/-- When the model output strips to nothing the fallback text is used. -/
theorem stripOrFallback_of_strip_empty (s : String) (h : pyStrip s = "") :
    stripOrFallback s = "No information found." := by
  simp [stripOrFallback, h]

/-- Characterization of a successful summarization loop: the keys are the
prompt keys in order and every value is a stripped-or-fallback model answer. -/
theorem summarizeLoop_ok_spec (b : LLMBackend) (model : String) (index : VectorIndex) :
    ∀ (qs : List (String × String)) (s : Summary),
      summarizeLoop b model index qs = Except.ok s →
      s.map Prod.fst = qs.map Prod.fst ∧
      ∀ p ∈ s, ∃ r : ChainResult, p.2 = stripOrFallback r.result := by
  intro qs
  induction qs with
  | nil =>
    intro s h
    simp only [summarizeLoop] at h
    injection h with h
    subst h
    simp
  | cons kp rest ih =>
    intro s h
    simp only [summarizeLoop] at h
    cases hq : qa_chain_invoke b model index 10 kp.2 with
    | error e =>
      rw [hq] at h
      exact absurd h (by simp)
    | ok res =>
      rw [hq] at h
      cases hrest : summarizeLoop b model index rest with
      | error e =>
        rw [hrest] at h
        exact absurd h (by simp)
      | ok restSummary =>
        rw [hrest] at h
        injection h with h
        subst h
        obtain ⟨hmap, hvals⟩ := ih restSummary hrest
        constructor
        · simp [hmap]
        · intro p hp
          rcases List.mem_cons.mp hp with h1 | h2
          · exact ⟨res, by rw [h1]⟩
          · exact hvals p h2

/- ## Claim theorems -/

/-- Claim C3: for every document text, concatenating each chunk's unique
(non-overlap) region in order — the first chunk in full, every later chunk
with its leading 20-character overlap removed — reconstructs a string equal
to the original text, for the chunker with chunk size 300 and overlap 20. -/
theorem chunk_unique_regions_reconstruct (s : String) :
    uniqueRegionsConcat 20 (split_text 300 20 s) = s := by
  apply eq_of_data_eq
  rw [show split_text 300 20 s = (splitChars 300 20 s.data).map String.mk from rfl]
  rw [uniqueRegionsConcat_data]
  exact splitChars_reconstruct 300 20 (by norm_num) s.data

set_option maxRecDepth 10000 in
/-- Claim C8: a single URL whose extractable text is 900 characters long is
split, with chunk size 300 and overlap 20, into exactly 4 chunks — both by
the chunker itself and through `fetch_and_split_documents`. -/
theorem chunk_900_characters_gives_4_chunks :
    (split_text 300 20 c8text).length = 4 ∧
    Option.map List.length
      (fetch_and_split_documents c8fetch ["https://example.com/scheme"]) = some 4 := by
  constructor <;> decide

/-- Claim C9: a successful `summarize_sections` returns a mapping whose keys
are exactly Benefits, Process, Eligibility, Documents in order, and whose
every value is a non-empty string; each value is a stripped model answer,
and when that answer strips to the empty string the value is the fallback
string "No information found.". -/
theorem summarize_sections_keys_and_values (b : LLMBackend) (model : String)
    (index : VectorIndex) (s : Summary)
    (h : summarize_sections b model index = Except.ok s) :
    s.map Prod.fst = ["Benefits", "Process", "Eligibility", "Documents"] ∧
    ∀ p ∈ s, p.2 ≠ "" ∧
      ∃ a : String, p.2 = stripOrFallback a ∧
        (pyStrip a = "" → p.2 = "No information found.") := by
  obtain ⟨hmap, hvals⟩ := summarizeLoop_ok_spec b model index questions s h
  refine ⟨by simpa [questions] using hmap, ?_⟩
  intro p hp
  obtain ⟨r, hr⟩ := hvals p hp
  refine ⟨by rw [hr]; exact stripOrFallback_ne_empty r.result, r.result, hr, ?_⟩
  intro he
  rw [hr, stripOrFallback_of_strip_empty r.result he]

/-- Claim C9 witness: with a backend whose answers are all whitespace,
`summarize_sections` succeeds and the keys are the four categories (every
value being the fallback string). -/
theorem summarize_sections_keys_and_values_witness :
    allFallback.map Prod.fst = ["Benefits", "Process", "Eligibility", "Documents"] :=
  (summarize_sections_keys_and_values blankBackend "llama3-8b-8192" sampleIndex
    allFallback rfl).1

/-- Claim C1 counterexample: in a session with an index and an empty history
(so no entry with question equal to the empty string exists), submitting the
empty question string appends nothing — the claim's unconditional "appends
exactly one record" fails for the empty question, which the handler's
`if question:` guard discards. -/
theorem submit_empty_question_appends_nothing :
    st0.qa_history = [] ∧ submitQuestion okBackend st0 "" = (st0, 0, false) :=
  ⟨rfl, rfl⟩

/-- Claim C1 (amended): for every session state with an index present and
every non-empty question string, submitting a question that already has a
history entry with the exact same question string leaves the state unchanged
with no chain invocation, and submitting a fresh question whose generation
succeeds appends exactly one record built from the answer and the retrieved
sources. -/
theorem submitQuestion_dedup_and_append (b : LLMBackend) (st : SessionState)
    (q : String) (index : VectorIndex) (ans : String)
    (hvs : st.vector_store = some index) (hq : q ≠ "") :
    (st.qa_history.any (fun r => r.question == q) = true →
      submitQuestion b st q = (st, 0, false)) ∧
    (st.qa_history.any (fun r => r.question == q) = false →
      b.generate st.selected_model q (b.retriever index q 10) = Except.ok ans →
      submitQuestion b st q =
        ({ st with qa_history := st.qa_history ++
             [⟨q, ans, ((b.retriever index q 10).filterMap Document.source).dedup⟩] },
         1, false)) := by
  constructor
  · intro hdup
    simp [submitQuestion, hvs, hq, hdup]
  · intro hfresh hgen
    simp [submitQuestion, hvs, hq, hfresh, qa_chain_invoke, hgen]

/-- Claim C1 witness: both branches at concrete inputs — re-submitting the
already-recorded question `q1` is a no-op with no invocation, and submitting
the fresh question `q2` appends exactly its record. -/
theorem submitQuestion_dedup_and_append_witness :
    submitQuestion okBackend stDup "q1" = (stDup, 0, false) ∧
    submitQuestion okBackend st0 "q2" =
      ({ st0 with qa_history := [q2Record] }, 1, false) := by
  constructor
  · exact (submitQuestion_dedup_and_append okBackend stDup "q1" sampleIndex "x"
      rfl (by decide)).1 (by decide)
  · exact (submitQuestion_dedup_and_append okBackend st0 "q2" sampleIndex
      "answer to q2" rfl (by decide)).2 rfl rfl

/-- Claim C2 counterexample: in a session where the summary has already been
generated for the current index, triggering Generate Summary again is not a
no-op — `summarize_sections` is invoked once more and `summary_data` is
overwritten with the freshly computed summary, which differs from the cached
one. -/
theorem generate_summary_not_noop :
    stSummarized.summary_generated = true ∧
    stSummarized.vector_store = some sampleIndex ∧
    (generateSummary okBackend stSummarized).2 = 1 ∧
    (generateSummary okBackend stSummarized).1 =
      Except.ok { stSummarized with summary_data := some freshSummary } ∧
    some freshSummary ≠ stSummarized.summary_data :=
  ⟨rfl, rfl, rfl, rfl, by decide⟩

/-- Claim C2 (amended): whenever the index is present and summarization
succeeds, triggering Generate Summary recomputes the summary — exactly one
`summarize_sections` invocation — and overwrites `summary_data` with the
fresh result, setting `summary_generated`; all other session fields are
unchanged.  This holds in particular when the summary was already generated
for the unchanged index, so re-triggering is not a no-op. -/
theorem generateSummary_recomputes (b : LLMBackend) (st : SessionState)
    (index : VectorIndex) (s : Summary)
    (hvs : st.vector_store = some index)
    (hok : summarize_sections b st.selected_model index = Except.ok s) :
    generateSummary b st =
      (Except.ok { st with summary_data := some s, summary_generated := true }, 1) := by
  simp [generateSummary, hvs, hok]

/-- Claim C2 witness: regenerating the summary of an already-summarized
session recomputes and overwrites the cache. -/
theorem generateSummary_recomputes_witness :
    generateSummary okBackend stSummarized =
      (Except.ok { stSummarized with summary_data := some freshSummary,
                                     summary_generated := true }, 1) :=
  generateSummary_recomputes okBackend stSummarized sampleIndex freshSummary rfl rfl

/-- Claim C4: Reset returns the session to the default state — empty
history, no vector index, no summary, input type None, default model — and
removes every file from the uploads directory; a subsequent Process action
starts from an empty index, producing either no index at all or one built
exclusively from the freshly collected documents. -/
theorem reset_clears_session_and_uploads (st : SessionState) (uploads : List String) :
    resetTool st uploads = (defaultState, []) ∧
    defaultState.qa_history = [] ∧
    defaultState.vector_store = none ∧
    defaultState.summary_data = none ∧
    defaultState.summary_generated = false ∧
    defaultState.input_type = "None" ∧
    defaultState.selected_model = "llama3-8b-8192" ∧
    ∀ (fetch : List String → Except String (List Document))
      (raw_links : Option String) (url_file : Option PDFFile),
      (processAction fetch defaultState [] raw_links url_file).1.vector_store = none ∨
      (processAction fetch defaultState [] raw_links url_file).1.vector_store =
        some (store_in_faiss
          (collectURLDocs fetch raw_links ++ (collectPDFDocs [] url_file).2)) := by
  refine ⟨rfl, rfl, rfl, rfl, rfl, rfl, rfl, ?_⟩
  intro fetch raw_links url_file
  cases h : (collectURLDocs fetch raw_links ++ (collectPDFDocs [] url_file).2).isEmpty with
  | true => left; simp [processAction, h, defaultState]
  | false => right; simp [processAction, h]

/-- Claim C5: when the URL input path contributes no usable documents and no
PDF is given, Process shows the warning, creates no index and leaves the
whole state (in particular `vector_store`) and the uploads directory
unchanged; and this does not abort the PDF path — with the same unusable URL
input plus a PDF that splits into chunks, an index over exactly those PDF
chunks is created. -/
theorem process_no_usable_text (fetch : List String → Except String (List Document))
    (st : SessionState) (uploads : List String) (raw_links : Option String)
    (hurl : collectURLDocs fetch raw_links = []) :
    processAction fetch st uploads raw_links none = (st, uploads, true) ∧
    ∀ pdf : PDFFile,
      split_documents 300 20 (read_uploaded_pdf uploads pdf).2 ≠ [] →
      (processAction fetch st uploads raw_links (some pdf)).1.vector_store =
        some (store_in_faiss (split_documents 300 20 (read_uploaded_pdf uploads pdf).2)) := by
  constructor
  · simp [processAction, hurl, collectPDFDocs]
  · intro pdf hne
    simp [processAction, hurl, collectPDFDocs, hne]

/-- Claim C5 witness: a URL whose fetched content is all whitespace with no
PDF warns and changes nothing, while the same URL input plus a PDF still
builds an index from the PDF chunks. -/
theorem process_no_usable_text_witness :
    processAction whitespaceFetch st0 [] (some "https://example.com/a") none =
      (st0, [], true) ∧
    (processAction whitespaceFetch st0 [] (some "https://example.com/a")
        (some samplePDF)).1.vector_store =
      some (store_in_faiss (split_documents 300 20 (read_uploaded_pdf [] samplePDF).2)) := by
  have h := process_no_usable_text whitespaceFetch st0 [] (some "https://example.com/a")
    (by decide)
  exact ⟨h.1, h.2 samplePDF (by decide)⟩

/-- Claim C6: if answer generation for a fresh non-empty question fails, the
failure is surfaced as an error message, exactly nothing is appended to the
history, and the whole session state — existing history and summary included
— is unchanged. -/
theorem submitQuestion_failure_preserves_state (b : LLMBackend) (st : SessionState)
    (q : String) (index : VectorIndex) (e : String)
    (hvs : st.vector_store = some index) (hq : q ≠ "")
    (hfresh : st.qa_history.any (fun r => r.question == q) = false)
    (hgen : b.generate st.selected_model q (b.retriever index q 10) = Except.error e) :
    submitQuestion b st q = (st, 1, true) := by
  simp [submitQuestion, hvs, hq, hfresh, qa_chain_invoke, hgen]

/-- Claim C6 witness: a backend that raises leaves the session untouched and
shows the error. -/
theorem submitQuestion_failure_preserves_state_witness :
    submitQuestion failBackend st0 "What is covered?" = (st0, 1, true) :=
  submitQuestion_failure_preserves_state failBackend st0 "What is covered?"
    sampleIndex "rate limit" rfl (by decide) rfl rfl

/-- Claim C7: answering a question and each of the four fixed summary
prompts retrieves with k = 10: the appended record's answer is generated
from the 10 retrieved chunks and its sources are exactly the (deduplicated)
source identifiers of those chunks, and each summary value is the
stripped-or-fallback answer generated from the 10 chunks retrieved for its
prompt. -/
theorem retrieval_uses_k10_and_records_sources (b : LLMBackend) (st : SessionState)
    (q : String) (index : VectorIndex) (ans a1 a2 a3 a4 : String)
    (hvs : st.vector_store = some index) (hq : q ≠ "")
    (hfresh : st.qa_history.any (fun r => r.question == q) = false)
    (hgen : b.generate st.selected_model q (b.retriever index q 10) = Except.ok ans)
    (h1 : b.generate st.selected_model "Summarize the key benefits of the scheme."
      (b.retriever index "Summarize the key benefits of the scheme." 10) = Except.ok a1)
    (h2 : b.generate st.selected_model "Describe the application process for the scheme."
      (b.retriever index "Describe the application process for the scheme." 10) = Except.ok a2)
    (h3 : b.generate st.selected_model "What are the eligibility criteria for this scheme?"
      (b.retriever index "What are the eligibility criteria for this scheme?" 10) = Except.ok a3)
    (h4 : b.generate st.selected_model "List documents required to apply."
      (b.retriever index "List documents required to apply." 10) = Except.ok a4) :
    submitQuestion b st q =
      ({ st with qa_history := st.qa_history ++
           [⟨q, ans, ((b.retriever index q 10).filterMap Document.source).dedup⟩] },
       1, false) ∧
    summarize_sections b st.selected_model index =
      Except.ok [("Benefits", stripOrFallback a1), ("Process", stripOrFallback a2),
                 ("Eligibility", stripOrFallback a3), ("Documents", stripOrFallback a4)] := by
  constructor
  · simp [submitQuestion, hvs, hq, hfresh, qa_chain_invoke, hgen]
  · simp [summarize_sections, questions, summarizeLoop, qa_chain_invoke, h1, h2, h3, h4]

/-- Claim C7 witness: at a concrete backend and session, the appended record
carries the retrieved chunk's source and the four summary values are the
answers generated for the four prompts. -/
theorem retrieval_uses_k10_and_records_sources_witness :
    submitQuestion okBackend st0 "q2" =
      ({ st0 with qa_history := [q2Record] }, 1, false) ∧
    summarize_sections okBackend st0.selected_model sampleIndex =
      Except.ok freshSummary := by
  have h := retrieval_uses_k10_and_records_sources okBackend st0 "q2" sampleIndex
    "answer to q2"
    "answer to Summarize the key benefits of the scheme."
    "answer to Describe the application process for the scheme."
    "answer to What are the eligibility criteria for this scheme?"
    "answer to List documents required to apply."
    rfl (by decide) rfl rfl rfl rfl rfl rfl
  exact h

/-- The question handler either leaves the history unchanged or appends one
record whose question is the submitted non-empty string and whose sources
are deduplicated. -/
theorem submitQuestion_history_cases (b : LLMBackend) (st : SessionState) (q : String) :
    (submitQuestion b st q).1.qa_history = st.qa_history ∨
    (q ≠ "" ∧ ∃ (ans : String) (docs : List Document),
      (submitQuestion b st q).1.qa_history =
        st.qa_history ++ [⟨q, ans, (docs.filterMap Document.source).dedup⟩]) := by
  unfold submitQuestion
  cases hvs : st.vector_store with
  | none => left; rfl
  | some index =>
    by_cases hq : q = ""
    · simp [hq]
    · simp only [if_neg hq]
      by_cases hdup : st.qa_history.any (fun r => r.question == q) = true
      · simp [hdup]
      · simp only [Bool.not_eq_true] at hdup
        simp only [hdup, Bool.false_eq_true, if_false]
        cases qa_chain_invoke b st.selected_model index 10 q with
        | ok res => right; exact ⟨hq, res.result, res.source_documents, rfl⟩
        | error e => left; rfl

/-- Claim C10: the question handler preserves the invariant that every
history entry has a non-empty question and a duplicate-free sources list —
the appended entry's sources are collected through a set and the empty
question is never recorded. -/
theorem qa_history_entries_wellformed (b : LLMBackend) (st : SessionState) (q : String)
    (hinv : ∀ r ∈ st.qa_history, r.question ≠ "" ∧ r.sources.Nodup) :
    ∀ r ∈ (submitQuestion b st q).1.qa_history, r.question ≠ "" ∧ r.sources.Nodup := by
  intro r hr
  rcases submitQuestion_history_cases b st q with hcase | ⟨hq, ans, docs, hcase⟩
  · rw [hcase] at hr
    exact hinv r hr
  · rw [hcase] at hr
    rcases List.mem_append.mp hr with h1 | h2
    · exact hinv r h1
    · rw [List.mem_singleton.mp h2]
      exact ⟨hq, List.nodup_dedup _⟩

/-- Claim C10 witness: the record appended for the fresh question `q2` has a
non-empty question and duplicate-free sources. -/
theorem qa_history_entries_wellformed_witness :
    q2Record.question ≠ "" ∧ q2Record.sources.Nodup := by
  have h := qa_history_entries_wellformed okBackend st0 "q2"
    (fun r hr => absurd hr (List.not_mem_nil r))
  exact h q2Record (by decide)

end SchemeApp
